import Mathlib

/-!
Shallow embedding of `src/ai_chatbot.py` (`class ManufacturingChatbot`).

Queries and responses are Lean `String`s; Python text operations
(`str.lower`, `str.strip`, the substring test `in`, slicing `[:50]`,
`str.format`) are modelled on `List Char` / `String`.

Python floats are modelled as `ℚ` and ints as `ℤ`.  `format(x, '.1f')`
style rendering is modelled by `fixedFmtCore`; exact decimal inputs
(such as `99.9 = 999/10`) render identically to Python.  (At exact
half-way ties our rounding is half-up while Python's is half-even; no
claim exercises a tie.)

Randomness (`random.uniform`, `random.randint`, `random.choice`) and
the wall clock (`datetime.now().strftime`) are modelled by an explicit
per-call oracle `RNG`; `RNG.Valid` records exactly the guarantees of
the Python `random` primitives (a value inside the requested range, an
index inside the list).
-/

namespace AIChatbot

/-- Whitespace characters removed by Python `str.strip()` (ASCII fragment). -/
def pyIsSpace (c : Char) : Bool :=
  c = ' ' || c = '\t' || c = '\n' || c = '\r' || c = '\x0b' || c = '\x0c'

/-- Python `str.strip()`: drop whitespace from both ends. -/
def pyStrip (l : List Char) : List Char :=
  ((l.dropWhile pyIsSpace).reverse.dropWhile pyIsSpace).reverse

/-- `user_query.lower().strip()` from `get_response` (line 198). -/
def normalize (s : String) : List Char :=
  pyStrip (s.data.map Char.toLower)

/-- Does the haystack start with the needle (first argument)? -/
def startsWithL : List Char → List Char → Bool
  | [], _ => true
  | _ :: _, [] => false
  | a :: as, b :: bs => a == b && startsWithL as bs

/-- Python's substring test `needle in haystack` on character lists. -/
def containsSub (nee : List Char) : List Char → Bool
  | [] => nee.isEmpty
  | c :: cs => startsWithL nee (c :: cs) || containsSub nee cs

/-- Substring test on `String`s (haystack first). -/
def strContains (hay nee : String) : Bool :=
  containsSub nee.data hay.data

/-- Python slicing `s[:n]`. -/
def pyTake (n : Nat) (s : String) : String :=
  String.mk (s.data.take n)

/-- Left-pad a digit string with zeros to length `p`. -/
def padZeros (p : Nat) (s : String) : String :=
  String.mk (List.replicate (p - s.data.length) '0') ++ s

/-- Insert a comma every three characters of a reversed digit list. -/
def commaChunk (ds : List Char) : List Char :=
  if ds.length ≤ 3 then ds
  else ds.take 3 ++ ',' :: commaChunk (ds.drop 3)
termination_by ds.length
decreasing_by simp [List.length_drop]; omega

/-- Decimal rendering of a natural number with thousands separators,
as in Python's `format(n, ',')`. -/
def commaNat (n : Nat) : String :=
  String.mk ((commaChunk (toString n).data.reverse).reverse)

/-- The integer `⌊x * 10 ^ p + 1 / 2⌋`, written on the numerator and
denominator of `x` so that it evaluates by pure `Int`/`Nat` arithmetic
(see `roundHalfUp_eq_floor`). -/
def roundHalfUp (p : Nat) (x : ℚ) : Int :=
  Int.fdiv (2 * x.num * (10 : Int) ^ p + (x.den : Int)) (2 * (x.den : Int))

/-- Python fixed-point formatting `format(x, '.pf')` (and, when `comma`
is set, `format(x, ',.pf')`) of a rational, rounding half-up. -/
def fixedFmtCore (comma : Bool) (p : Nat) (x : ℚ) : String :=
  let scaled := roundHalfUp p x
  let sign := if scaled < 0 then "-" else ""
  let n := scaled.natAbs
  let ip := n / 10 ^ p
  let fp := n % 10 ^ p
  let ipStr := if comma then commaNat ip else toString ip
  if p = 0 then sign ++ ipStr
  else sign ++ ipStr ++ "." ++ padZeros p (toString fp)

/-- A value a placeholder can take: a string, a float (`ℚ`) or an int. -/
inductive Val where
  | s (v : String)
  | q (v : ℚ)
  | i (v : Int)
deriving DecidableEq, Repr

/-- The format specs occurring in the chatbot's templates:
none, `:.pf`, `:,.pf` and `:,`. -/
inductive Fmt where
  | default
  | fixed (p : Nat)
  | commaFixed (p : Nat)
  | commaInt
deriving DecidableEq, Repr

/-- One piece of a Python format string: literal text or `{name:fmt}`. -/
inductive Seg where
  | lit (t : String)
  | ph (name : String) (f : Fmt)
deriving DecidableEq, Repr

/-- Rendering one value under one format spec.  `none` models the
`ValueError` Python raises when a string meets a numeric spec. -/
def formatVal : Fmt → Val → Option String
  | Fmt.default, Val.s v => some v
  | Fmt.default, Val.i v => some (toString v)
  | Fmt.default, Val.q v => some (fixedFmtCore false 1 v)
  | Fmt.fixed p, Val.q v => some (fixedFmtCore false p v)
  | Fmt.fixed p, Val.i v => some (fixedFmtCore false p (v : ℚ))
  | Fmt.fixed _, Val.s _ => none
  | Fmt.commaFixed p, Val.q v => some (fixedFmtCore true p v)
  | Fmt.commaFixed p, Val.i v => some (fixedFmtCore true p (v : ℚ))
  | Fmt.commaFixed _, Val.s _ => none
  | Fmt.commaInt, Val.i v => some ((if v < 0 then "-" else "") ++ commaNat v.natAbs)
  | Fmt.commaInt, Val.q v => some (fixedFmtCore true 0 v)
  | Fmt.commaInt, Val.s _ => none

/-- Python `template.format(**kwargs)`: each placeholder is looked up in
the keyword mapping; a missing key (`KeyError`) or a type mismatch
(`ValueError`) yields `none`. -/
def renderTemplate (segs : List Seg) (m : List (String × Val)) : Option String :=
  match segs with
  | [] => some ""
  | Seg.lit t :: rest => (renderTemplate rest m).map (fun r => t ++ r)
  | Seg.ph n f :: rest => do
      let v ← m.lookup n
      let s ← formatVal f v
      let r ← renderTemplate rest m
      pure (s ++ r)

/-- The spec-suffix text of a format, used to reconstruct the raw
(unformatted) template string. -/
def fmtSuffix : Fmt → String
  | Fmt.default => ""
  | Fmt.fixed p => ":." ++ toString p ++ "f"
  | Fmt.commaFixed p => ":,." ++ toString p ++ "f"
  | Fmt.commaInt => ":,"

/-- The raw Python source string of a template (as stored in
`knowledge_base[...]['response']` before any `.format` call). -/
def rawText : List Seg → String
  | [] => ""
  | Seg.lit t :: rest => t ++ rawText rest
  | Seg.ph n f :: rest => "\x7b" ++ n ++ fmtSuffix f ++ "\x7d" ++ rawText rest

/-- Oracle for one call: the values produced by Python's `random`
module and the formatted wall-clock time of `datetime.now()`. -/
structure RNG where
  uniform : ℚ → ℚ → ℚ
  randint : Int → Int → Int
  choiceIdx : Nat → Nat
  now : String

/-- The contracts of `random.uniform`, `random.randint` and
`random.choice`: results lie in the requested range / index set. -/
def RNG.Valid (g : RNG) : Prop :=
  (∀ a b : ℚ, a ≤ b → a ≤ g.uniform a b ∧ g.uniform a b ≤ b) ∧
  (∀ a b : Int, a ≤ b → a ≤ g.randint a b ∧ g.randint a b ≤ b) ∧
  (∀ n : Nat, 0 < n → g.choiceIdx n < n)

/-- `random.choice(l)` under the oracle `g` (with a default for the
empty list, which never occurs in the chatbot's pools). -/
def pyChoice {α : Type} (g : RNG) (l : List α) (dflt : α) : α :=
  l.getD (g.choiceIdx l.length) dflt

end AIChatbot

namespace AIChatbot

/-- One entry of `self.knowledge_base`: the dict key, the `'keywords'`
list and the `'response'` template. -/
structure Topic where
  id : String
  keywords : List String
  response : List Seg
deriving DecidableEq, Repr

/-- Template of the `'oee'` topic (source lines 22-31). -/
def oeeTemplate : List Seg :=
  [Seg.lit "**Overall Equipment Effectiveness (OEE)** is currently at ",
   Seg.ph "oee" (Fmt.fixed 1),
   Seg.lit "%.\n\nOEE is calculated as: **Availability × Performance × Quality**\n\n📊 **Current Breakdown:**\n- Availability: ",
   Seg.ph "availability" (Fmt.fixed 1),
   Seg.lit "%\n- Performance: ",
   Seg.ph "performance" (Fmt.fixed 1),
   Seg.lit "%\n- Quality: ",
   Seg.ph "quality" (Fmt.fixed 1),
   Seg.lit "%\n\n💡 **Recommendation:** ",
   Seg.ph "recommendation" Fmt.default]

/-- Template of the `'maintenance'` topic (source lines 35-44). -/
def maintenanceTemplate : List Seg :=
  [Seg.lit "🔧 **Predictive Maintenance Analysis**\n\nBased on AI analysis of sensor data:\n\n",
   Seg.ph "equipment_status" Fmt.default,
   Seg.lit "\n\n⏰ **Upcoming Maintenance:**\n",
   Seg.ph "maintenance_schedule" Fmt.default,
   Seg.lit "\n\n💰 **Projected Cost Savings:** $",
   Seg.ph "savings" Fmt.commaInt,
   Seg.lit " this month through predictive maintenance."]

/-- Template of the `'energy'` topic (source lines 48-56). -/
def energyTemplate : List Seg :=
  [Seg.lit "⚡ **Energy Analytics Summary**\n\n📊 **Today\x27s Consumption:** ",
   Seg.ph "today_kwh" (Fmt.commaFixed 0),
   Seg.lit " kWh\n📈 **Peak Demand:** ",
   Seg.ph "peak_kw" (Fmt.commaFixed 0),
   Seg.lit " kW\n💵 **Cost:** $",
   Seg.ph "cost" (Fmt.commaFixed 2),
   Seg.lit "\n🌱 **Carbon Footprint:** ",
   Seg.ph "carbon" (Fmt.fixed 0),
   Seg.lit " kg CO₂\n\n💡 **AI Recommendations:**\n",
   Seg.ph "recommendations" Fmt.default]

/-- Template of the `'quality'` topic (source lines 60-69). -/
def qualityTemplate : List Seg :=
  [Seg.lit "✅ **Quality Control Summary**\n\n📊 **First Pass Yield:** ",
   Seg.ph "fpy" (Fmt.fixed 1),
   Seg.lit "%\n❌ **Defect Rate:** ",
   Seg.ph "defect_rate" (Fmt.fixed 2),
   Seg.lit "%\n🔄 **Rework Rate:** ",
   Seg.ph "rework_rate" (Fmt.fixed 2),
   Seg.lit "%\n\n🔍 **Top Defect Types:**\n",
   Seg.ph "defect_types" Fmt.default,
   Seg.lit "\n\n💡 **AI Insight:** ",
   Seg.ph "insight" Fmt.default]

/-- Template of the `'production'` topic (source lines 73-81). -/
def productionTemplate : List Seg :=
  [Seg.lit "📈 **Production Analytics**\n\n📊 **Today\x27s Output:** ",
   Seg.ph "units" Fmt.commaInt,
   Seg.lit " units\n🎯 **Target Achievement:** ",
   Seg.ph "target_pct" (Fmt.fixed 1),
   Seg.lit "%\n⏱️ **Average Cycle Time:** ",
   Seg.ph "cycle_time" (Fmt.fixed 1),
   Seg.lit " seconds\n🏭 **Throughput:** ",
   Seg.ph "throughput" (Fmt.fixed 0),
   Seg.lit " units/hour\n\n📉 **Production by Line:**\n",
   Seg.ph "line_production" Fmt.default]

/-- Template of the `'alert'` topic (source lines 85-90). -/
def alertTemplate : List Seg :=
  [Seg.lit "⚠️ **Active Alerts Summary**\n\n",
   Seg.ph "alerts" Fmt.default,
   Seg.lit "\n\n💡 **Recommended Actions:**\n",
   Seg.ph "actions" Fmt.default]

/-- Template of the `'anomaly'` topic (source lines 94-103). -/
def anomalyTemplate : List Seg :=
  [Seg.lit "🔍 **Anomaly Detection Results**\n\n📊 **Anomalies Detected (Last 24h):** ",
   Seg.ph "count" Fmt.default,
   Seg.lit "\n📈 **Anomaly Rate:** ",
   Seg.ph "rate" (Fmt.fixed 2),
   Seg.lit "%\n🎯 **Model Confidence:** ",
   Seg.ph "confidence" (Fmt.fixed 1),
   Seg.lit "%\n\n🚨 **Recent Anomalies:**\n",
   Seg.ph "anomaly_list" Fmt.default,
   Seg.lit "\n\n💡 **Root Cause Analysis:** ",
   Seg.ph "root_cause" Fmt.default]

/-- Template of the `'help'` topic (source lines 107-132): static text,
no placeholders. -/
def helpTemplate : List Seg :=
  [Seg.lit "🤖 **TitanForge AI Assistant**\n\nI can help you with:\n\n📊 **Analytics Queries:**\n- \"What is the current OEE?\"\n- \"Show me energy consumption\"\n- \"Analyze production rates\"\n- \"What\x27s the defect rate?\"\n\n🔧 **Maintenance:**\n- \"When is the next maintenance?\"\n- \"Which machines need attention?\"\n- \"Predict equipment failures\"\n\n⚠️ **Alerts & Issues:**\n- \"Show active alerts\"\n- \"Any anomalies detected?\"\n- \"What problems need attention?\"\n\n📈 **Insights:**\n- \"Give me optimization tips\"\n- \"How can we improve efficiency?\"\n- \"Summarize today\x27s performance\"\n\nJust ask your question naturally!"]

/-- Template of the `'summary'` topic (source lines 136-157). -/
def summaryTemplate : List Seg :=
  [Seg.lit "📊 **Daily Operations Summary**\n\n🏭 **Production:**\n- Units Produced: ",
   Seg.ph "units" Fmt.commaInt,
   Seg.lit "\n- Target Achievement: ",
   Seg.ph "target_pct" (Fmt.fixed 1),
   Seg.lit "%\n- OEE: ",
   Seg.ph "oee" (Fmt.fixed 1),
   Seg.lit "%\n\n⚡ **Energy:**\n- Consumption: ",
   Seg.ph "energy" (Fmt.commaFixed 0),
   Seg.lit " kWh\n- Cost: $",
   Seg.ph "cost" (Fmt.commaFixed 2),
   Seg.lit "\n\n✅ **Quality:**\n- First Pass Yield: ",
   Seg.ph "fpy" (Fmt.fixed 1),
   Seg.lit "%\n- Defect Rate: ",
   Seg.ph "defect_rate" (Fmt.fixed 2),
   Seg.lit "%\n\n🔧 **Maintenance:**\n- Equipment Health: ",
   Seg.ph "health_status" Fmt.default,
   Seg.lit "\n- Next Scheduled: ",
   Seg.ph "next_maintenance" Fmt.default,
   Seg.lit "\n\n⚠️ **Alerts:** ",
   Seg.ph "alert_count" Fmt.default,
   Seg.lit " active\n\n💡 **Top Priority:** ",
   Seg.ph "priority" Fmt.default]

/-- Template of the `'optimize'` topic (source lines 161-177). -/
def optimizeTemplate : List Seg :=
  [Seg.lit "💡 **AI Optimization Recommendations**\n\nBased on current data analysis:\n\n🎯 **High Impact Actions:**\n",
   Seg.ph "high_impact" Fmt.default,
   Seg.lit "\n\n📊 **Medium Impact Actions:**\n",
   Seg.ph "medium_impact" Fmt.default,
   Seg.lit "\n\n⏰ **Quick Wins:**\n",
   Seg.ph "quick_wins" Fmt.default,
   Seg.lit "\n\n📈 **Projected Improvements:**\n- OEE: +",
   Seg.ph "oee_improvement" (Fmt.fixed 1),
   Seg.lit "%\n- Energy Savings: ",
   Seg.ph "energy_savings" Fmt.default,
   Seg.lit "%\n- Quality Improvement: +",
   Seg.ph "quality_improvement" (Fmt.fixed 1),
   Seg.lit "%"]

/-- `self.knowledge_base` (source lines 19-179), in declaration
(= Python dict insertion) order. -/
def knowledge_base : List Topic :=
  [⟨"oee", ["oee", "overall equipment effectiveness", "equipment effectiveness"], oeeTemplate⟩,
   ⟨"maintenance", ["maintenance", "repair", "fix", "broken", "failure", "predict"], maintenanceTemplate⟩,
   ⟨"energy", ["energy", "power", "consumption", "electricity", "kwh", "carbon"], energyTemplate⟩,
   ⟨"quality", ["quality", "defect", "defects", "reject", "scrap", "yield", "fpy"], qualityTemplate⟩,
   ⟨"production", ["production", "output", "units", "throughput", "capacity", "rate"], productionTemplate⟩,
   ⟨"alert", ["alert", "alarm", "warning", "critical", "issue", "problem"], alertTemplate⟩,
   ⟨"anomaly", ["anomaly", "anomalies", "unusual", "abnormal", "outlier"], anomalyTemplate⟩,
   ⟨"help", ["help", "what can you do", "commands", "how to", "guide"], helpTemplate⟩,
   ⟨"summary", ["summary", "overview", "status", "dashboard", "report", "today"], summaryTemplate⟩,
   ⟨"optimize", ["optimize", "improve", "better", "increase", "reduce", "efficiency", "tips"], optimizeTemplate⟩]

/-- `self.default_responses` (source lines 182-186), as format strings
over the single keyword `query`.  The third entry has no placeholder. -/
def default_responses : List (List Seg) :=
  [[Seg.lit "I understand you\x27re asking about \x27",
    Seg.ph "query" Fmt.default,
    Seg.lit "\x27. Could you be more specific? Try asking about OEE, energy, quality, production, or maintenance."],
   [Seg.lit "I\x27m not sure about \x27",
    Seg.ph "query" Fmt.default,
    Seg.lit "\x27. You can ask me about equipment status, energy consumption, quality metrics, or production data."],
   [Seg.lit "Let me help you better! Try questions like \x27What\x27s the current OEE?\x27 or \x27Show me today\x27s production summary\x27."]]

end AIChatbot

namespace AIChatbot

/-- `recommendations` pool of the `'oee'` branch (source lines 236-241). -/
def oeeRecommendations : List String :=
  ["Focus on reducing changeover time to improve availability.",
   "Consider implementing TPM to boost performance.",
   "Review quality inspection protocols on Line B.",
   "Current performance is above target. Maintain current practices."]

/-- `equipment_list` of the `'maintenance'` branch (source lines 252-258). -/
def equipmentList : List String :=
  ["✅ CNC Machine #1: Healthy (92% health score)",
   "✅ CNC Machine #2: Healthy (88% health score)",
   "⚠️ CNC Machine #3: Attention needed (65% health score)",
   "✅ Robot Arm A: Healthy (94% health score)",
   "🔴 Press Machine: Maintenance due in 3 days"]

/-- `schedule` of the `'maintenance'` branch (source lines 260-264). -/
def maintenanceScheduleList : List String :=
  ["• CNC Machine #3: Bearing replacement - Feb 5",
   "• Press Machine: Full inspection - Feb 7",
   "• Conveyor System: Belt check - Feb 10"]

/-- `recommendations` of the `'energy'` branch (source lines 273-278). -/
def energyRecommendations : List String :=
  ["• Shift peak operations to off-peak hours (10 PM - 6 AM)",
   "• Install VFDs on main motors - potential 15% savings",
   "• Fix compressed air leaks detected in Zone 3",
   "• Optimize HVAC scheduling based on occupancy"]

/-- `defect_types` of the `'quality'` branch (source lines 289-294). -/
def defectTypesList : List String :=
  ["1. Surface scratches: 35%",
   "2. Dimensional errors: 28%",
   "3. Color variations: 20%",
   "4. Weld defects: 17%"]

/-- `insights` of the `'quality'` branch (source lines 296-301). -/
def qualityInsights : List String :=
  ["Temperature fluctuations on Line B correlate with increased defects.",
   "Morning shift shows 15% better quality metrics than night shift.",
   "Consider recalibrating sensors on Station 5.",
   "Quality trending upward - maintain current process parameters."]

/-- `line_production` of the `'production'` branch (source lines 312-317). -/
def lineProductionList : List String :=
  ["• Line A (Assembly): 1,350 units (102% of target)",
   "• Line B (Welding): 1,180 units (94% of target)",
   "• Line C (Painting): 980 units (98% of target)",
   "• Line D (Packaging): 1,420 units (108% of target)"]

/-- `alerts` of the `'alert'` branch (source lines 328-333). -/
def alertsList : List String :=
  ["🔴 CRITICAL: Temperature threshold exceeded on CNC #3",
   "🟡 WARNING: Vibration anomaly on Robot Arm A",
   "🟡 WARNING: Energy consumption 15% above baseline",
   "🔵 INFO: Scheduled maintenance reminder for tomorrow"]

/-- `actions` of the `'alert'` branch (source lines 335-340). -/
def alertActionsList : List String :=
  ["1. Immediately check CNC Machine #3 cooling system",
   "2. Schedule inspection for Robot Arm A bearings",
   "3. Review energy usage patterns for optimization",
   "4. Confirm maintenance crew availability for tomorrow"]

/-- `anomaly_list` of the `'anomaly'` branch (source lines 348-352). -/
def anomalyListPool : List String :=
  ["• 14:23 - Pressure spike on Hydraulic System (+45%)",
   "• 11:47 - Temperature drift on Motor 2 (+12°C)",
   "• 09:15 - Vibration pattern change on Conveyor"]

/-- `root_causes` of the `'anomaly'` branch (source lines 354-358). -/
def rootCauses : List String :=
  ["Pattern suggests bearing degradation in hydraulic pump.",
   "Cooling system efficiency may be reduced - check filters.",
   "Likely caused by belt tension variation."]

/-- `health_statuses` of the `'summary'` branch (source line 369). -/
def healthStatuses : List String :=
  ["Good", "Excellent", "Needs Attention"]

/-- `priorities` of the `'summary'` branch (source lines 370-375). -/
def prioritiesList : List String :=
  ["Address CNC Machine #3 temperature warning",
   "Complete scheduled maintenance on Press Machine",
   "Review Line B quality metrics",
   "All systems operating normally"]

/-- `high_impact` of the `'optimize'` branch (source lines 392-396). -/
def highImpactList : List String :=
  ["1. Implement predictive maintenance on CNC machines (-30% downtime)",
   "2. Optimize batch scheduling to reduce changeover time",
   "3. Install real-time quality monitoring on Line B"]

/-- `medium_impact` of the `'optimize'` branch (source lines 398-402). -/
def mediumImpactList : List String :=
  ["1. Upgrade to energy-efficient motors on conveyor system",
   "2. Implement automated defect detection using computer vision",
   "3. Cross-train operators for multi-line capability"]

/-- `quick_wins` of the `'optimize'` branch (source lines 404-408). -/
def quickWinsList : List String :=
  ["1. Adjust temperature setpoints based on AI recommendations",
   "2. Reschedule energy-intensive operations to off-peak hours",
   "3. Update SPC control limits based on recent data"]

/-- The caller-supplied dashboard context (`self.context`): a mapping
from metric name to value, modelled as an association list. -/
def Ctx : Type := List (String × Val)

instance : DecidableEq Ctx := by
  unfold Ctx
  exact inferInstance

/-- The keyword arguments of the `template.format(...)` call in the
`'oee'` branch (source lines 243-249): the `oee` value is taken from
the stored context when the key is present and sampled otherwise
(source line 231); the other placeholders are always sampled. -/
def oeeArgs (ctx : Ctx) (g : RNG) : List (String × Val) :=
  [("oee", (List.lookup "oee" ctx).getD (Val.q (g.uniform 78 92))),
   ("availability", Val.q (g.uniform 88 96)),
   ("performance", Val.q (g.uniform 85 95)),
   ("quality", Val.q (g.uniform 95 (Rat.divInt 199 2))),
   ("recommendation", Val.s (pyChoice g oeeRecommendations ""))]

/-- `ManufacturingChatbot._generate_response` (source lines 224-422).
`none` models an uncaught Python exception (`KeyError` on an unknown
topic, `ValueError` when a context value of the wrong type meets a
numeric format spec). -/
def generate_response (topic : String) (ctx : Ctx) (g : RNG) : Option String :=
  match knowledge_base.find? (fun t => t.id == topic) with
  | none => none
  | some t =>
  let template := t.response
  if topic == "oee" then
    renderTemplate template (oeeArgs ctx g)
  else if topic == "maintenance" then
    renderTemplate template
      [("equipment_status", Val.s (String.intercalate "\n" equipmentList)),
       ("maintenance_schedule", Val.s (String.intercalate "\n" maintenanceScheduleList)),
       ("savings", Val.i (g.randint 15000 45000))]
  else if topic == "energy" then
    renderTemplate template
      [("today_kwh", Val.q (g.uniform 15000 18000)),
       ("peak_kw", Val.q (g.uniform 800 1200)),
       ("cost", Val.q (g.uniform 1800 2500)),
       ("carbon", Val.q (g.uniform 8000 12000)),
       ("recommendations", Val.s (String.intercalate "\n" energyRecommendations))]
  else if topic == "quality" then
    renderTemplate template
      [("fpy", Val.q (g.uniform 95 99)),
       ("defect_rate", Val.q (g.uniform (Rat.divInt 1 2) (Rat.divInt 3 2))),
       ("rework_rate", Val.q (g.uniform (Rat.divInt 4 5) 2)),
       ("defect_types", Val.s (String.intercalate "\n" defectTypesList)),
       ("insight", Val.s (pyChoice g qualityInsights ""))]
  else if topic == "production" then
    renderTemplate template
      [("units", Val.i (g.randint 4500 5500)),
       ("target_pct", Val.q (g.uniform 92 105)),
       ("cycle_time", Val.q (g.uniform 12 16)),
       ("throughput", Val.q (g.uniform 200 250)),
       ("line_production", Val.s (String.intercalate "\n" lineProductionList))]
  else if topic == "alert" then
    renderTemplate template
      [("alerts", Val.s (String.intercalate "\n" alertsList)),
       ("actions", Val.s (String.intercalate "\n" alertActionsList))]
  else if topic == "anomaly" then
    renderTemplate template
      [("count", Val.i (g.randint 3 12)),
       ("rate", Val.q (g.uniform (Rat.divInt 1 2) (Rat.divInt 5 2))),
       ("confidence", Val.q (g.uniform 92 98)),
       ("anomaly_list", Val.s (String.intercalate "\n" anomalyListPool)),
       ("root_cause", Val.s (pyChoice g rootCauses ""))]
  else if topic == "summary" then
    renderTemplate template
      [("units", Val.i (g.randint 4500 5500)),
       ("target_pct", Val.q (g.uniform 92 105)),
       ("oee", Val.q (g.uniform 78 92)),
       ("energy", Val.q (g.uniform 15000 18000)),
       ("cost", Val.q (g.uniform 1800 2500)),
       ("fpy", Val.q (g.uniform 95 99)),
       ("defect_rate", Val.q (g.uniform (Rat.divInt 1 2) (Rat.divInt 3 2))),
       ("health_status", Val.s (pyChoice g healthStatuses "")),
       ("next_maintenance", Val.s "Feb 5, 2026"),
       ("alert_count", Val.i (g.randint 2 6)),
       ("priority", Val.s (pyChoice g prioritiesList ""))]
  else if topic == "optimize" then
    renderTemplate template
      [("high_impact", Val.s (String.intercalate "\n" highImpactList)),
       ("medium_impact", Val.s (String.intercalate "\n" mediumImpactList)),
       ("quick_wins", Val.s (String.intercalate "\n" quickWinsList)),
       ("oee_improvement", Val.q (g.uniform 3 8)),
       ("energy_savings", Val.i (g.randint 10 20)),
       ("quality_improvement", Val.q (g.uniform (Rat.divInt 1 2) 2))]
  else if topic == "help" then
    pure (rawText template)
  else
    pure (rawText template)

/-- One entry of `self.conversation_history` (source lines 216-220). -/
structure Turn where
  timestamp : String
  user : String
  assistant : String
deriving DecidableEq, Repr

/-- The mutable fields of a `ManufacturingChatbot` instance. -/
structure ChatState where
  context : Ctx
  history : List Turn
deriving DecidableEq

/-- A fresh instance (`__init__`, source lines 14-16). -/
def initState : ChatState :=
  ⟨[], []⟩

/-- The inner loop of `get_response` (source lines 203-206): does any
keyword of the topic occur in the normalized query? -/
def topicMatches (t : Topic) (nq : List Char) : Bool :=
  t.keywords.any (fun k => containsSub k.data nq)

/-- The matching loop of `get_response` (source lines 200-208) applied
to an already-normalized query: first topic, in declaration order, any
of whose keywords occurs in the query. -/
def classifyCore (nq : List Char) : Option String :=
  (knowledge_base.find? (fun t => topicMatches t nq)).map (fun t => t.id)

/-- The spec's `classify(query)`: normalization followed by the
first-match keyword scan. -/
def classify (q : String) : Option String :=
  classifyCore (normalize q)

/-- The context-update step of `get_response` (source lines 195-196):
`if dashboard_data: self.context = dashboard_data` — a falsy argument
(absent, or an empty mapping) leaves the stored context in place. -/
def effCtx (dashboard_data : Option Ctx) (s : ChatState) : Ctx :=
  match dashboard_data with
  | some d => if d.isEmpty then s.context else d
  | none => s.context

/-- `ManufacturingChatbot.get_response` (source lines 192-222).
Returns the response text and the updated instance state; `none`
models an uncaught Python exception escaping the call. -/
def get_response (user_query : String) (dashboard_data : Option Ctx) (g : RNG)
    (s : ChatState) : Option (String × ChatState) :=
  match
    match classifyCore (normalize user_query) with
    | some topic => generate_response topic (effCtx dashboard_data s) g
    | none =>
        renderTemplate (pyChoice g default_responses [])
          [("query", Val.s (pyTake 50 user_query))]
  with
  | none => none
  | some response =>
      some (response,
        ⟨effCtx dashboard_data s, s.history ++ [⟨g.now, user_query, response⟩]⟩)

/-- The response text of one call, without the state. -/
def respText (user_query : String) (dashboard_data : Option Ctx) (g : RNG)
    (s : ChatState) : Option String :=
  (get_response user_query dashboard_data g s).map (fun p => p.1)

/-- `ManufacturingChatbot.get_conversation_history` (source lines 424-426). -/
def get_conversation_history (s : ChatState) : List Turn :=
  s.history

/-- `ManufacturingChatbot.clear_history` (source lines 428-430). -/
def clear_history (s : ChatState) : ChatState :=
  ⟨s.context, []⟩

/-- `ManufacturingChatbot.update_context` (source lines 188-190). -/
def update_context (s : ChatState) (data : Ctx) : ChatState :=
  ⟨data, s.history⟩

/-- The arguments of one `get_response` call, with its oracle. -/
structure Call where
  query : String
  dashboard_data : Option Ctx
  g : RNG

/-- Run a sequence of `get_response` calls, collecting the returned
responses; `none` as soon as one call raises. -/
def runCalls (s : ChatState) : List Call → Option (ChatState × List String)
  | [] => some (s, [])
  | c :: cs =>
      match get_response c.query c.dashboard_data c.g s with
      | none => none
      | some (r, s') =>
          match runCalls s' cs with
          | none => none
          | some (sf, rs) => some (sf, r :: rs)

end AIChatbot

namespace AIChatbot

theorem roundHalfUp_eq_floor (p : Nat) (x : ℚ) :
    roundHalfUp p x = ⌊x * (10 : ℚ) ^ p + 1 / 2⌋ := by
  have hd : (x.den : ℚ) ≠ 0 := by
    exact_mod_cast x.den_nz
  have hx : x = (x.num : ℚ) / (x.den : ℚ) := (Rat.num_div_den x).symm
  have hrepr : x * (10 : ℚ) ^ p + 1 / 2 =
      ((2 * x.num * (10 : Int) ^ p + (x.den : Int) : Int) : ℚ) / ((2 * x.den : ℕ) : ℚ) := by
    nth_rewrite 1 [hx]
    push_cast
    field_simp
    ring
  rw [roundHalfUp, Int.fdiv_eq_ediv _ (by positivity), hrepr,
    Rat.floor_intCast_div_natCast]
  push_cast
  ring_nf

theorem startsWithL_iff (nee : List Char) :
    ∀ hay, startsWithL nee hay = true ↔ nee <+: hay := by
  induction nee with
  | nil =>
    intro hay
    simp [startsWithL, List.nil_prefix]
  | cons a as ih =>
    intro hay
    cases hay with
    | nil => simp [startsWithL]
    | cons b bs =>
      simp only [startsWithL, List.prefix_cons_iff, ih, Bool.and_eq_true, beq_iff_eq]
      constructor
      · rintro ⟨rfl, h⟩
        exact Or.inr ⟨as, rfl, h⟩
      · rintro (h | ⟨t, ht, h⟩)
        · exact absurd h (by simp)
        · obtain ⟨rfl, rfl⟩ := List.cons.inj ht
          exact ⟨rfl, h⟩

theorem containsSub_iff (nee : List Char) :
    ∀ hay, containsSub nee hay = true ↔ nee <:+: hay := by
  intro hay
  induction hay with
  | nil => simp [containsSub, List.infix_nil, List.isEmpty_iff]
  | cons c cs ih =>
    simp [containsSub, List.infix_cons_iff, startsWithL_iff, ih]

theorem strContains_iff (hay nee : String) :
    strContains hay nee = true ↔ nee.data <:+: hay.data :=
  containsSub_iff nee.data hay.data

theorem find?_eq_some_first {α : Type} {p : α → Bool} :
    ∀ {l : List α} {a : α}, l.find? p = some a ↔
      p a = true ∧ ∃ l₁ l₂, l = l₁ ++ a :: l₂ ∧ ∀ x ∈ l₁, p x = false := by
  intro l
  induction l with
  | nil =>
    intro a
    constructor
    · intro h
      simp [List.find?] at h
    · rintro ⟨-, l₁, l₂, h, -⟩
      exact absurd h (by simp)
  | cons x xs ih =>
    intro a
    by_cases hx : p x = true
    · rw [List.find?_cons_of_pos _ hx]
      constructor
      · intro h
        obtain rfl := Option.some.inj h
        exact ⟨hx, [], xs, rfl, by simp⟩
      · rintro ⟨hpa, l₁, l₂, heq, hall⟩
        cases l₁ with
        | nil =>
          obtain ⟨rfl, -⟩ := List.cons.inj heq
          rfl
        | cons y ys =>
          obtain ⟨rfl, -⟩ := List.cons.inj heq
          exact absurd hx (by simp [hall x (List.mem_cons_self x ys)])
    · rw [List.find?_cons_of_neg _ hx]
      rw [ih]
      have hx' : p x = false := by
        simpa using hx
      constructor
      · rintro ⟨hpa, l₁, l₂, rfl, hall⟩
        refine ⟨hpa, x :: l₁, l₂, rfl, ?_⟩
        intro z hz
        rcases List.mem_cons.mp hz with rfl | hz'
        · exact hx'
        · exact hall z hz'
      · rintro ⟨hpa, l₁, l₂, heq, hall⟩
        cases l₁ with
        | nil =>
          obtain ⟨rfl, -⟩ := List.cons.inj heq
          exact absurd hpa (by simp [hx'])
        | cons y ys =>
          obtain ⟨rfl, htl⟩ := List.cons.inj heq
          exact ⟨hpa, ys, l₂, htl, fun z hz => hall z (List.mem_cons_of_mem _ hz)⟩

theorem find?_eq_some_iff_idx {α : Type} {p : α → Bool} {l : List α} {a : α} :
    l.find? p = some a ↔
      p a = true ∧ ∃ i, ∃ h : i < l.length, l.get ⟨i, h⟩ = a ∧
        ∀ j, j < i → ∀ hj : j < l.length, p (l.get ⟨j, hj⟩) = false := by
  rw [find?_eq_some_first]
  refine and_congr_right fun _ => ?_
  constructor
  · rintro ⟨l₁, l₂, rfl, hall⟩
    refine ⟨l₁.length, ?_, ?_, ?_⟩
    · simp
    · simp [List.get_eq_getElem, List.getElem_append_right (Nat.le_refl l₁.length)]
    · intro j hj hjlen
      simp only [List.get_eq_getElem, List.getElem_append_left hj]
      exact hall _ (List.getElem_mem hj)
  · rintro ⟨i, h, rfl, hall⟩
    refine ⟨l.take i, l.drop (i + 1), ?_, ?_⟩
    · rw [List.get_eq_getElem, List.getElem_cons_drop, List.take_append_drop]
    · intro z hz
      rw [List.mem_take_iff_getElem] at hz
      obtain ⟨j, hj, rfl⟩ := hz
      exact hall j (by omega) (by omega)

end AIChatbot

namespace AIChatbot

theorem renderTemplate_substring {segs : List Seg} {m : List (String × Val)} :
    ∀ {r : String}, renderTemplate segs m = some r →
      ∀ {n : String} {f : Fmt} {v : Val} {s : String}, Seg.ph n f ∈ segs →
        m.lookup n = some v → formatVal f v = some s → s.data <:+: r.data := by
  induction segs with
  | nil =>
    intro r _ n f v s hmem _ _
    cases hmem
  | cons seg rest ih =>
    intro r h n f v s hmem hv hs
    cases seg with
    | lit t =>
      rw [renderTemplate] at h
      obtain ⟨r', hr', rfl⟩ := Option.map_eq_some'.mp h
      have hmem' : Seg.ph n f ∈ rest := by
        rcases List.mem_cons.mp hmem with heq | hmem'
        · cases heq
        · exact hmem'
      have hinf := ih hr' hmem' hv hs
      rw [String.data_append]
      exact hinf.trans (List.suffix_append _ _).isInfix
    | ph n' f' =>
      rw [renderTemplate] at h
      simp only [Option.bind_eq_bind, Option.bind_eq_some, Option.pure_def, Option.some.injEq] at h
      obtain ⟨v', hv', s', hs', r', hr', hreq⟩ := h
      subst hreq
      rcases List.mem_cons.mp hmem with heq | hmem'
      · obtain ⟨rfl, rfl⟩ : n' = n ∧ f' = f := by
          cases heq
          exact ⟨rfl, rfl⟩
        obtain rfl : v' = v := by
          rw [hv] at hv'
          exact (Option.some.inj hv').symm
        obtain rfl : s' = s := by
          rw [hs] at hs'
          exact (Option.some.inj hs').symm
        rw [String.data_append]
        exact (List.prefix_append _ _).isInfix
      · have hinf := ih hr' hmem' hv hs
        rw [String.data_append]
        exact hinf.trans (List.suffix_append _ _).isInfix

theorem renderTemplate_isSome {segs : List Seg} {m : List (String × Val)}
    (h : ∀ n f, Seg.ph n f ∈ segs →
      ∃ v s, m.lookup n = some v ∧ formatVal f v = some s) :
    ∃ r, renderTemplate segs m = some r := by
  induction segs with
  | nil => exact ⟨"", rfl⟩
  | cons seg rest ih =>
    cases seg with
    | lit t =>
      obtain ⟨r, hr⟩ := ih fun n f hm => h n f (List.mem_cons_of_mem _ hm)
      refine ⟨t ++ r, ?_⟩
      rw [renderTemplate, hr]
      rfl
    | ph n f =>
      obtain ⟨v, s, hv, hs⟩ := h n f (List.mem_cons_self _ _)
      obtain ⟨r, hr⟩ := ih fun n' f' hm => h n' f' (List.mem_cons_of_mem _ hm)
      refine ⟨s ++ r, ?_⟩
      rw [renderTemplate]
      simp only [Option.bind_eq_bind, Option.bind_eq_some, Option.pure_def, Option.some.injEq]
      exact ⟨v, hv, s, hs, r, hr, rfl⟩

end AIChatbot

namespace AIChatbot

/-- A concrete oracle: `uniform` and `randint` return the lower end of
the requested range, `choice` picks the first element. -/
def lowRNG : RNG :=
  ⟨fun a _ => a, fun a _ => a, fun _ => 0, "12:00:00"⟩

lemma lowRNG_valid : lowRNG.Valid :=
  ⟨fun a _ h => ⟨le_refl a, h⟩, fun a _ h => ⟨le_refl a, h⟩, fun _ hn => hn⟩

/-- Characterization of a successful `get_response` call: the returned
state stores the effective context and appends exactly one turn. -/
lemma get_response_some {q : String} {dd : Option Ctx} {g : RNG} {s : ChatState}
    {r : String} {s' : ChatState} (h : get_response q dd g s = some (r, s')) :
    s' = ⟨effCtx dd s, s.history ++ [⟨g.now, q, r⟩]⟩ := by
  unfold get_response at h
  rcases hresp : (match classifyCore (normalize q) with
    | some topic => generate_response topic (effCtx dd s) g
    | none =>
        renderTemplate (pyChoice g default_responses [])
          [("query", Val.s (pyTake 50 q))]) with _ | resp
  · rw [hresp] at h
    cases h
  · rw [hresp] at h
    obtain ⟨rfl, rfl⟩ := Prod.mk.inj (Option.some.inj h)
    rfl

/-- Characterization of the classifier: `classify q = some tid` holds
exactly when some topic at position `i` has id `tid`, matches the
normalized query, and no earlier-declared topic matches. -/
lemma classify_eq_some_iff {q : String} {tid : String} :
    classify q = some tid ↔
      ∃ i, ∃ h : i < knowledge_base.length,
        (knowledge_base.get ⟨i, h⟩).id = tid ∧
        topicMatches (knowledge_base.get ⟨i, h⟩) (normalize q) = true ∧
        ∀ j, j < i → ∀ hj : j < knowledge_base.length,
          topicMatches (knowledge_base.get ⟨j, hj⟩) (normalize q) = false := by
  unfold classify classifyCore
  rw [Option.map_eq_some']
  constructor
  · rintro ⟨t, hfind, rfl⟩
    obtain ⟨hp, i, h, rfl, hall⟩ := find?_eq_some_iff_idx.mp hfind
    exact ⟨i, h, rfl, hp, hall⟩
  · rintro ⟨i, h, rfl, hp, hall⟩
    exact ⟨knowledge_base.get ⟨i, h⟩, find?_eq_some_iff_idx.mpr ⟨hp, i, h, rfl, hall⟩, rfl⟩

lemma knowledge_base_ids_nodup : (knowledge_base.map Topic.id).Nodup := by
  decide

end AIChatbot

namespace AIChatbot

/-- C8: every query whose lower-cased, trimmed form contains the
substring "oee" is classified to the OEE topic (which is also the
first-declared topic, so no earlier topic can preempt it). -/
theorem oee_query_classifies_oee (q : String)
    (h : containsSub "oee".data (normalize q) = true) :
    classify q = some "oee" := by
  unfold classify classifyCore knowledge_base
  rw [List.find?_cons_of_pos]
  · rfl
  · simp [topicMatches, h]

/-- Witness for C8 at the concrete query " OEE please". -/
theorem oee_query_classifies_oee_witness :
    containsSub "oee".data (normalize " OEE please") = true ∧
    classify " OEE please" = some "oee" :=
  ⟨by decide, oee_query_classifies_oee " OEE please" (by decide)⟩

/-- C10: passing an empty mapping as the dashboard context is treated
exactly like passing no context at all (`if dashboard_data:` is falsy
for the empty dict): the stored context is not replaced and the whole
call behaves identically. -/
theorem empty_context_equals_none (q : String) (g : RNG) (s : ChatState) :
    get_response q (some []) g s = get_response q none g s :=
  rfl

/-- C7: classification is a pure function of the lower-cased, trimmed
query: queries with the same normal form classify identically, and the
whole response is independent of the conversation history (it can
depend only on the stored context, never on earlier turns). -/
theorem classification_deterministic :
    (∀ q q' : String, normalize q = normalize q' → classify q = classify q') ∧
    (∀ (q : String) (dd : Option Ctx) (g : RNG) (s s' : ChatState),
      s.context = s'.context → respText q dd g s = respText q dd g s') := by
  constructor
  · intro q q' h
    unfold classify
    rw [h]
  · intro q dd g s s' h
    have hctx : effCtx dd s = effCtx dd s' := by
      cases dd with
      | none => exact h
      | some d => simp [effCtx, h]
    unfold respText get_response
    rw [hctx]
    rcases hresp : (match classifyCore (normalize q) with
      | some topic => generate_response topic (effCtx dd s') g
      | none =>
          renderTemplate (pyChoice g default_responses [])
            [("query", Val.s (pyTake 50 q))]) with _ | resp
    · rw [hresp]
    · rw [hresp]
      rfl

/-- Witness for C7: " OEE " and "oee" normalize identically and
classify identically; two states with equal context but different
history answer identically. -/
theorem classification_deterministic_witness :
    classify " OEE " = classify "oee" ∧
    respText "status" none lowRNG initState =
      respText "status" none lowRNG ⟨[], [⟨"09:00:00", "q", "r"⟩]⟩ :=
  ⟨classification_deterministic.1 " OEE " "oee" (by decide),
   classification_deterministic.2 "status" none lowRNG initState
     ⟨[], [⟨"09:00:00", "q", "r"⟩]⟩ rfl⟩

end AIChatbot

namespace AIChatbot

/-- C1: classification is first-match in declaration order — `classify
q = some tid` exactly when the topic at some position `i` has id `tid`,
one of its keywords occurs in the normalized query, and no
earlier-declared topic matches; in particular, when topics at positions
`i < j` both match, the later topic `j` is never the result. -/
theorem classification_first_match :
    (∀ q tid : String, classify q = some tid ↔
      ∃ i, ∃ h : i < knowledge_base.length,
        (knowledge_base.get ⟨i, h⟩).id = tid ∧
        topicMatches (knowledge_base.get ⟨i, h⟩) (normalize q) = true ∧
        ∀ j, j < i → ∀ hj : j < knowledge_base.length,
          topicMatches (knowledge_base.get ⟨j, hj⟩) (normalize q) = false) ∧
    (∀ (q : String) (i j : Nat) (hi : i < knowledge_base.length)
        (hj : j < knowledge_base.length), i < j →
      topicMatches (knowledge_base.get ⟨i, hi⟩) (normalize q) = true →
      classify q ≠ some ((knowledge_base.get ⟨j, hj⟩).id)) := by
  refine ⟨fun q tid => classify_eq_some_iff, ?_⟩
  intro q i j hi hj hij hmatch hcl
  obtain ⟨k, hk, hkid, hkp, hall⟩ := classify_eq_some_iff.mp hcl
  have hki : k ≤ i := by
    by_contra hlt
    push_neg at hlt
    rw [hall i hlt hi] at hmatch
    cases hmatch
  have hkj : k < j := lt_of_le_of_lt hki hij
  have hmapk : (knowledge_base.map Topic.id).get ⟨k, by simpa using hk⟩ =
      (knowledge_base.map Topic.id).get ⟨j, by simpa using hj⟩ := by
    rw [List.get_eq_getElem, List.get_eq_getElem, List.getElem_map, List.getElem_map]
    exact hkid
  have hfin := (knowledge_base_ids_nodup.get_inj_iff).mp hmapk
  have : k = j := by
    simpa using hfin
  omega

/-- Witness for C1: "quality alert" matches both the quality topic
(position 3) and the alert topic (position 5); the later-declared alert
topic is not chosen. -/
theorem classification_first_match_witness :
    classify "quality alert" ≠ some ((knowledge_base.get ⟨5, by decide⟩).id) :=
  classification_first_match.2 "quality alert" 3 5 (by decide) (by decide)
    (by decide) (by decide)

/-- C9: the help topic ignores the supplied context and the random
oracle entirely: rendering it returns the raw static template, so every
query classified to the help topic produces exactly the same fixed
response text, whatever context the call supplies. -/
theorem help_topic_static :
    (∀ (ctx : Ctx) (g : RNG),
      generate_response "help" ctx g = some (rawText helpTemplate)) ∧
    (∀ (q : String) (dd : Option Ctx) (g : RNG) (s : ChatState),
      classify q = some "help" → respText q dd g s = some (rawText helpTemplate)) := by
  have hgen : ∀ (ctx : Ctx) (g : RNG),
      generate_response "help" ctx g = some (rawText helpTemplate) := fun _ _ => rfl
  refine ⟨hgen, ?_⟩
  intro q dd g s hcl
  unfold classify at hcl
  unfold respText get_response
  simp only [hcl, hgen]
  rfl

/-- Witness for C9 at the query "help" with a nonempty context. -/
theorem help_topic_static_witness :
    respText "help" (some [("oee", Val.q 1)]) lowRNG initState =
      some (rawText helpTemplate) :=
  help_topic_static.2 "help" (some [("oee", Val.q 1)]) lowRNG initState (by decide)

end AIChatbot

namespace AIChatbot

/-- C5: each successful `get_response` call appends exactly one turn
recording that call's query and returned response, in call order, so
after N calls from a fresh instance the history has exactly N turns;
`clear_history` empties the log and is idempotent. -/
theorem history_monotone :
    (∀ (calls : List Call) (s sf : ChatState) (rs : List String),
      runCalls s calls = some (sf, rs) →
        rs.length = calls.length ∧
        sf.history = s.history ++
          List.zipWith (fun c r => Turn.mk c.g.now c.query r) calls rs) ∧
    (∀ s : ChatState, get_conversation_history (clear_history s) = []) ∧
    (∀ s : ChatState, clear_history (clear_history s) = clear_history s) := by
  refine ⟨?_, fun _ => rfl, fun _ => rfl⟩
  intro calls
  induction calls with
  | nil =>
    intro s sf rs h
    obtain ⟨rfl, rfl⟩ := Prod.mk.inj (Option.some.inj h)
    simp
  | cons c cs ih =>
    intro s sf rs h
    unfold runCalls at h
    rcases hg : get_response c.query c.dashboard_data c.g s with _ | ⟨r, s'⟩
    · simp only [hg] at h
      cases h
    · simp only [hg] at h
      rcases hrun : runCalls s' cs with _ | ⟨sf', rs'⟩
      · simp only [hrun] at h
        cases h
      · simp only [hrun] at h
        obtain ⟨rfl, rfl⟩ := Prod.mk.inj (Option.some.inj h)
        obtain ⟨hlen, hhist⟩ := ih s' sf' rs' hrun
        have hs' := get_response_some hg
        subst hs'
        refine ⟨by simp [hlen], ?_⟩
        rw [hhist]
        simp

/-- Witness for C5: one call on a fresh instance yields a one-turn
history; clearing it yields the empty log. -/
theorem history_monotone_witness :
    ∃ sf rs, runCalls initState [⟨"help", none, lowRNG⟩] = some (sf, rs) ∧
      rs.length = 1 ∧ get_conversation_history (clear_history sf) = [] := by
  have hrun : runCalls initState [⟨"help", none, lowRNG⟩] =
      some (⟨[], [⟨"12:00:00", "help", rawText helpTemplate⟩]⟩, [rawText helpTemplate]) := by
    rfl
  refine ⟨_, _, hrun, ?_, history_monotone.2.1 _⟩
  exact (history_monotone.1 [⟨"help", none, lowRNG⟩] initState _ _ hrun).1

/-- C4: for every query matching no topic keyword, `get_response`
returns (never raising) one of the three fallback templates, selected
by the oracle's choice index, rendered with the first 50 characters of
the original query substituted for its `query` placeholder. -/
theorem fallback_coverage (q : String) (dd : Option Ctx) (g : RNG) (s : ChatState)
    (hg : g.Valid) (h : classify q = none) :
    ∃ i, ∃ hi : i < default_responses.length, ∃ r,
      renderTemplate (default_responses.get ⟨i, hi⟩)
        [("query", Val.s (pyTake 50 q))] = some r ∧
      respText q dd g s = some r := by
  have hidx : g.choiceIdx default_responses.length < default_responses.length :=
    hg.2.2 _ (by decide)
  obtain ⟨k, hk⟩ : ∃ k, g.choiceIdx default_responses.length = k := ⟨_, rfl⟩
  have hk3 : k < default_responses.length := hk ▸ hidx
  have hch : pyChoice g default_responses [] = default_responses.get ⟨k, hk3⟩ := by
    unfold pyChoice
    rw [hk, List.getD_eq_getElem _ _ hk3]
    rfl
  refine ⟨k, hk3, ?_⟩
  have hex : ∃ r, renderTemplate (default_responses.get ⟨k, hk3⟩)
      [("query", Val.s (pyTake 50 q))] = some r := by
    have hk3' : k < 3 := hk3
    interval_cases k
    · exact ⟨_, rfl⟩
    · exact ⟨_, rfl⟩
    · exact ⟨_, rfl⟩
  obtain ⟨r, hr⟩ := hex
  refine ⟨r, hr, ?_⟩
  unfold classify at h
  unfold respText get_response
  simp only [h, hch, hr]
  rfl

/-- Witness for C4 at the query "banana sandwich", which matches no
keyword. -/
theorem fallback_coverage_witness :
    ∃ i, ∃ hi : i < default_responses.length, ∃ r,
      renderTemplate (default_responses.get ⟨i, hi⟩)
        [("query", Val.s (pyTake 50 "banana sandwich"))] = some r ∧
      respText "banana sandwich" none lowRNG initState = some r :=
  fallback_coverage "banana sandwich" none lowRNG initState lowRNG_valid (by decide)

end AIChatbot

namespace AIChatbot

/-- Well-formedness of a supplied context: the single key the renderer
formats numerically (`'oee'`, read in the OEE branch) does not hold a
string.  A string there would make Python's `format(..., '.1f')` raise
`ValueError`; the spec classifies that as invalid input. -/
def CtxWF (ctx : Ctx) : Prop :=
  ∀ sv : String, List.lookup "oee" ctx ≠ some (Val.s sv)

set_option maxRecDepth 4000 in
lemma generate_response_total (t : Topic) (ht : t ∈ knowledge_base) (ctx : Ctx)
    (g : RNG) (hwf : CtxWF ctx) : (generate_response t.id ctx g).isSome = true := by
  simp only [knowledge_base, List.mem_cons, List.not_mem_nil, or_false] at ht
  rcases ht with rfl | rfl | rfl | rfl | rfl | rfl | rfl | rfl | rfl | rfl
  · rcases hov : List.lookup "oee" ctx with _ | v
    · simp only [generate_response, oeeArgs, hov]
      rfl
    · rcases v with sv | qv | iv
      · exact absurd hov (hwf sv)
      · simp only [generate_response, oeeArgs, hov]
        rfl
      · simp only [generate_response, oeeArgs, hov]
        rfl
  · rfl
  · rfl
  · rfl
  · rfl
  · rfl
  · rfl
  · rfl
  · rfl
  · rfl

lemma fallback_render_some (g : RNG) (q : String) :
    ∃ r, renderTemplate (pyChoice g default_responses [])
      [("query", Val.s (pyTake 50 q))] = some r := by
  unfold pyChoice
  rcases Nat.lt_or_ge (g.choiceIdx default_responses.length)
      default_responses.length with hlt | hge
  · obtain ⟨k, hk⟩ : ∃ k, g.choiceIdx default_responses.length = k := ⟨_, rfl⟩
    rw [hk] at hlt ⊢
    rw [List.getD_eq_getElem _ _ hlt]
    have hk3 : k < 3 := hlt
    interval_cases k
    · exact ⟨_, rfl⟩
    · exact ⟨_, rfl⟩
    · exact ⟨_, rfl⟩
  · rw [List.getD_eq_default _ _ hge]
    exact ⟨_, rfl⟩

/-- C6: rendering is total — every topic's render step supplies every
placeholder its template references, so a matched topic never fails
with a missing-placeholder error, and `get_response` succeeds on every
query for any well-formed context (the only excluded input is the
programmer error of a non-numeric context value under the numeric
`oee` placeholder). -/
theorem render_total :
    (∀ t ∈ knowledge_base, ∀ (ctx : Ctx) (g : RNG), CtxWF ctx →
      (generate_response t.id ctx g).isSome = true) ∧
    (∀ (q : String) (dd : Option Ctx) (g : RNG) (s : ChatState),
      CtxWF (effCtx dd s) → (get_response q dd g s).isSome = true) := by
  refine ⟨fun t ht ctx g hwf => generate_response_total t ht ctx g hwf, ?_⟩
  intro q dd g s hwf
  unfold get_response
  rcases hcl : classifyCore (normalize q) with _ | tid
  · simp only [hcl]
    obtain ⟨r, hr⟩ := fallback_render_some g q
    simp [hr]
  · unfold classifyCore at hcl
    obtain ⟨t, hfind, rfl⟩ := Option.map_eq_some'.mp hcl
    have ht : t ∈ knowledge_base := List.mem_of_find?_eq_some hfind
    have htot := generate_response_total t ht (effCtx dd s) g hwf
    simp only [hcl]
    rcases hgr : generate_response t.id (effCtx dd s) g with _ | r
    · rw [hgr] at htot
      cases htot
    · simp [hgr]

/-- Witness for C6 at a concrete query and well-formed context. -/
theorem render_total_witness :
    (get_response "what is the oee" (some [("oee", Val.q 80)]) lowRNG
      initState).isSome = true :=
  render_total.2 "what is the oee" (some [("oee", Val.q 80)]) lowRNG initState
    (fun sv h => by
      rw [show List.lookup "oee" (effCtx (some [("oee", Val.q 80)]) initState) =
        some (Val.q 80) from rfl] at h
      simp at h)

end AIChatbot

namespace AIChatbot

set_option maxRecDepth 8000 in
/-- Counterexample to C2: with context `{'availability': 0}` the
rendered OEE response ignores the context's availability value (the
code samples it unconditionally): the text never shows the supplied
0.0, showing the sampled 88.0 instead. -/
theorem context_override_counterexample :
    (respText "what is the oee" (some [("availability", Val.q 0)]) lowRNG
        initState).map (fun r => strContains r "Availability: 0.0") = some false ∧
    (respText "what is the oee" (some [("availability", Val.q 0)]) lowRNG
        initState).map (fun r => strContains r "Availability: 88.0") = some true := by
  decide

/-- C2 as amended: context override applies exactly to the `oee`
placeholder of the OEE topic — when the effective context holds the
key `"oee"`, that value is rendered (so `{'oee': 99.9}` yields text
containing "99.9"); every other placeholder of every topic is computed
independently of the context; and when the key is absent the OEE value
is freshly sampled from the uniform range [78, 92]. -/
theorem context_override_amended :
    (∀ (g : RNG) (s : ChatState),
      ∃ r, respText "what is the oee"
          (some [("oee", Val.q (Rat.divInt 999 10))]) g s = some r ∧
        strContains r "99.9" = true) ∧
    (∀ (ctx ctx' : Ctx) (g : RNG),
      List.lookup "oee" ctx = List.lookup "oee" ctx' →
      generate_response "oee" ctx g = generate_response "oee" ctx' g) ∧
    (∀ (tid : String) (ctx ctx' : Ctx) (g : RNG), tid ≠ "oee" →
      generate_response tid ctx g = generate_response tid ctx' g) ∧
    (∀ (g : RNG) (s : ChatState), g.Valid →
      List.lookup "oee" s.context = none →
      ∃ v : ℚ, 78 ≤ v ∧ v ≤ 92 ∧
        ∃ r, respText "what is the oee" none g s = some r ∧
          strContains r (fixedFmtCore false 1 v) = true) := by
  have hcl : classifyCore (normalize "what is the oee") = some "oee" := rfl
  refine ⟨?_, ?_, ?_, ?_⟩
  · intro g s
    have hr : generate_response "oee" [("oee", Val.q (Rat.divInt 999 10))] g =
        renderTemplate oeeTemplate
          (oeeArgs [("oee", Val.q (Rat.divInt 999 10))] g) := rfl
    obtain ⟨r, hrr⟩ : ∃ r, renderTemplate oeeTemplate
        (oeeArgs [("oee", Val.q (Rat.divInt 999 10))] g) = some r := ⟨_, rfl⟩
    refine ⟨r, ?_, ?_⟩
    · unfold respText get_response
      simp only [hcl]
      rw [show effCtx (some [("oee", Val.q (Rat.divInt 999 10))]) s =
        [("oee", Val.q (Rat.divInt 999 10))] from rfl, hr, hrr]
      rfl
    · rw [strContains_iff]
      exact @renderTemplate_substring oeeTemplate
        (oeeArgs [("oee", Val.q (Rat.divInt 999 10))] g) r hrr "oee"
        (Fmt.fixed 1) (Val.q (Rat.divInt 999 10)) "99.9" (by decide) rfl (by decide)
  · intro ctx ctx' g h
    simp only [generate_response, oeeArgs, h]
  · intro tid ctx ctx' g h
    have hbe : (tid == "oee") = false := by
      simp [h]
    simp only [generate_response, hbe, Bool.false_eq_true, if_false]
  · intro g s hg hnone
    refine ⟨g.uniform 78 92, (hg.1 78 92 (by norm_num)).1,
      (hg.1 78 92 (by norm_num)).2, ?_⟩
    have hargs : oeeArgs s.context g =
        [("oee", Val.q (g.uniform 78 92)),
         ("availability", Val.q (g.uniform 88 96)),
         ("performance", Val.q (g.uniform 85 95)),
         ("quality", Val.q (g.uniform 95 (Rat.divInt 199 2))),
         ("recommendation", Val.s (pyChoice g oeeRecommendations ""))] := by
      simp only [oeeArgs, hnone, Option.getD_none]
    obtain ⟨r, hrr⟩ : ∃ r, renderTemplate oeeTemplate (oeeArgs s.context g) =
        some r := by
      rw [hargs]
      exact ⟨_, rfl⟩
    refine ⟨r, ?_, ?_⟩
    · unfold respText get_response
      simp only [hcl]
      rw [show generate_response "oee" (effCtx none s) g =
        renderTemplate oeeTemplate (oeeArgs s.context g) from rfl, hrr]
      rfl
    · rw [strContains_iff]
      have hv : List.lookup "oee" (oeeArgs s.context g) =
          some (Val.q (g.uniform 78 92)) := by
        rw [hargs]
        rfl
      exact @renderTemplate_substring oeeTemplate (oeeArgs s.context g) r hrr "oee"
        (Fmt.fixed 1) (Val.q (g.uniform 78 92))
        (fixedFmtCore false 1 (g.uniform 78 92)) (by decide) hv rfl

/-- Witness for C2 (amended) at a concrete oracle and fresh state. -/
theorem context_override_amended_witness :
    (∃ r, respText "what is the oee"
        (some [("oee", Val.q (Rat.divInt 999 10))]) lowRNG initState = some r ∧
      strContains r "99.9" = true) ∧
    (∃ v : ℚ, 78 ≤ v ∧ v ≤ 92 ∧
      ∃ r, respText "what is the oee" none lowRNG initState = some r ∧
        strContains r (fixedFmtCore false 1 v) = true) :=
  ⟨context_override_amended.1 lowRNG initState,
   context_override_amended.2.2.2 lowRNG initState lowRNG_valid rfl⟩

end AIChatbot

namespace AIChatbot

set_option maxRecDepth 8000 in
/-- Counterexample to C3: the context supplied on an earlier call IS
retained — a second call with no context renders the OEE value 50
stored by the first call (text contains "50.0") instead of sampling
afresh (the oracle's sample 78 would render "78.0", which is absent). -/
theorem context_retention_counterexample :
    ((get_response "what is the oee" (some [("oee", Val.q 50)]) lowRNG
          initState).bind
        (fun p => get_response "what is the oee" none lowRNG p.2)).map
        (fun p => strContains p.1 "50.0") = some true ∧
    ((get_response "what is the oee" (some [("oee", Val.q 50)]) lowRNG
          initState).bind
        (fun p => get_response "what is the oee" none lowRNG p.2)).map
        (fun p => strContains p.1 "78.0") = some false := by
  decide

/-- C3 as amended: the context is retained across calls — a truthy
(nonempty) context replaces the stored one, a call with no context
keeps and reuses the stored context, and a call with no context
behaves exactly like one re-supplying the stored context. -/
theorem context_retention_amended :
    (∀ (q : String) (d : Ctx) (g : RNG) (s : ChatState) (r : String)
        (s' : ChatState), d ≠ [] →
      get_response q (some d) g s = some (r, s') → s'.context = d) ∧
    (∀ (q : String) (g : RNG) (s : ChatState) (r : String) (s' : ChatState),
      get_response q none g s = some (r, s') → s'.context = s.context) ∧
    (∀ (q : String) (g : RNG) (s : ChatState),
      get_response q none g s = get_response q (some s.context) g s) := by
  refine ⟨?_, ?_, ?_⟩
  · intro q d g s r s' hne h
    have hs' := get_response_some h
    subst hs'
    simp [effCtx, List.isEmpty_iff, hne]
  · intro q g s r s' h
    have hs' := get_response_some h
    subst hs'
    rfl
  · intro q g s
    obtain ⟨ctx, hist⟩ := s
    cases ctx <;> rfl

/-- Witness for C3 (amended): a call supplying a nonempty context
stores exactly that context on the instance. -/
theorem context_retention_amended_witness :
    ∃ r s', get_response "help" (some [("oee", Val.q 1)]) lowRNG initState =
        some (r, s') ∧ s'.context = [("oee", Val.q 1)] := by
  have h : get_response "help" (some [("oee", Val.q 1)]) lowRNG initState =
      some (rawText helpTemplate,
        ⟨[("oee", Val.q 1)], [⟨"12:00:00", "help", rawText helpTemplate⟩]⟩) := rfl
  exact ⟨_, _, h, context_retention_amended.1 "help" [("oee", Val.q 1)] lowRNG
    initState _ _ (by decide) h⟩

end AIChatbot
